import Mathlib

/-!
# Schema-reconciliation engine: verification of spec claims

Shallow embedding of the schema-reconciliation scripts of the repository
(type mapping, model extraction, diff, report and codegen), with theorems
settling the spec's claims about them.
-/

namespace SchemaRecon

/-- A database-side column descriptor, as produced by the catalog extractor
(`extract-complete-db-architecture.py`, columns query) and stored in
`DB_architecture.json`. Numeric qualifiers are integers or null there. -/
structure DbColumn where
  name : String
  position : Option Int
  data_type : String
  char_max_length : Option Int
  numeric_precision : Option Int
  numeric_scale : Option Int
  is_nullable : Bool
  column_default : Option String
  udt_name : String
deriving DecidableEq, Repr

/-- A database table as stored in `DB_architecture.json` (name plus columns in
catalog ordinal order; the other descriptor lists are not needed by the claims). -/
structure DbTable where
  name : String
  columns : List DbColumn
deriving DecidableEq, Repr

/-- A declaration-side column as extracted by `extract-drizzle-architecture.py`. -/
structure DzColumn where
  variable_name : String
  column_name : String
  drizzle_type : String
deriving DecidableEq, Repr

/-- A declaration-side table as extracted by `extract-drizzle-architecture.py`
(`extract_table_from_block`). -/
structure DzTable where
  variable_name : String
  table_name : String
  source_file : String
  columns : List DzColumn
deriving DecidableEq, Repr

/-- A raw column record of `add-missing-tables-to-schemas.py`, whose loader keeps
every field as the raw delimited text (strings, not parsed integers). -/
structure PgColumn where
  name : String
  data_type : String
  char_max_length : String
  numeric_precision : String
  numeric_scale : String
  is_nullable : Bool
  column_default : String
  udt_name : String
deriving DecidableEq, Repr

/-- Lexicographic code-point comparison of character lists, the order Python
uses to compare strings. -/
def strLeChars : List Char → List Char → Bool
  | [], _ => true
  | _ :: _, [] => false
  | a :: as, b :: bs =>
    if a.toNat < b.toNat then true
    else if b.toNat < a.toNat then false
    else strLeChars as bs

/-- Python string comparison `a <= b` (code-point lexicographic). -/
def strLe (a b : String) : Bool := strLeChars a.data b.data

/-- The ordering relation on strings used by Python `sorted`. -/
def StrLeRel (a b : String) : Prop := strLe a b = true

instance : DecidableRel StrLeRel := fun a b => instDecidableEqBool (strLe a b) true

/-- Python list `sorted` on strings (code-point lexicographic order, stable). -/
def sortStrings (l : List String) : List String := l.insertionSort StrLeRel

/-- Python set difference `a - b` over name lists (order of `a` kept, as the
result is always re-sorted or used as a set by the scripts). -/
def listDiff (a b : List String) : List String :=
  a.filter (fun x => decide (x ∉ b))

/-- Python set intersection `a & b` over name lists. -/
def listInter (a b : List String) : List String :=
  a.filter (fun x => decide (x ∈ b))

/-! ## String helpers mirroring the Python string operations used by the scripts -/

/-- The apostrophe character. -/
def sq : Char := Char.ofNat 39

/-- Auxiliary for `containsSub`: does `p0 :: prest` occur in the list? -/
def containsSubAux (p0 : Char) (prest : List Char) : List Char → Bool
  | [] => false
  | c :: rest => (c == p0 && prest.isPrefixOf rest) || containsSubAux p0 prest rest

/-- Python substring test `pat in s`. -/
def containsSub (s pat : String) : Bool :=
  match pat.data with
  | [] => true
  | p :: ps => containsSubAux p ps s.data

/-- Auxiliary for `pyReplace`: replace every non-overlapping occurrence of
`p0 :: prest` by `rep`, scanning left to right; the `Nat` argument counts
characters still to be skipped after a match. -/
def replaceAux (p0 : Char) (prest rep : List Char) : Nat → List Char → List Char
  | _ + 1, [] => []
  | k + 1, _ :: rest => replaceAux p0 prest rep k rest
  | 0, [] => []
  | 0, c :: rest =>
    if c == p0 && prest.isPrefixOf rest then rep ++ replaceAux p0 prest rep prest.length rest
    else c :: replaceAux p0 prest rep 0 rest

/-- Python `s.replace(pat, rep)` (all non-overlapping occurrences, left to
right). The scripts never call it with an empty pattern. -/
def pyReplace (s pat rep : String) : String :=
  match pat.data with
  | [] => s
  | p :: ps => String.mk (replaceAux p ps rep.data 0 s.data)

/-- Characters of `l` before the first occurrence of the pattern `p0 :: prest`:
Python `s.split(pat)[0]`. -/
def takeUntilSub (p0 : Char) (prest : List Char) : List Char → List Char
  | [] => []
  | c :: rest =>
    if c == p0 && prest.isPrefixOf rest then []
    else c :: takeUntilSub p0 prest rest

/-- Python `s.strip(c)` for a single strip character. -/
def stripChar (q : Char) (l : List Char) : List Char :=
  ((l.dropWhile (· == q)).reverse.dropWhile (· == q)).reverse

/-- First whitespace-delimited token of Python `s.split()`, `none` when the
string holds no token (where the scripts' subscript `[0]` would raise). -/
def pyFirstToken (l : List Char) : Option (List Char) :=
  match l.dropWhile (fun c => c.isWhitespace) with
  | [] => none
  | c :: rest => some ((c :: rest).takeWhile (fun c => !c.isWhitespace))

/-- Python `s.isdigit()` (nonempty and all digits; ASCII model). -/
def isDigitChars (l : List Char) : Bool := !l.isEmpty && l.all (·.isDigit)

/-- Python `s.isdigit()` on a string. -/
def isDigitString (s : String) : Bool := isDigitChars s.data

/-- Auxiliary for `camelize`: Python `re.sub(r'_([a-z])', upper-group)`. -/
def camelizeAux : List Char → List Char
  | [] => []
  | [c] => [c]
  | c :: d :: rest =>
    if c == Char.ofNat 95 && (Char.ofNat 97 ≤ d && d ≤ Char.ofNat 122) then
      d.toUpper :: camelizeAux rest
    else c :: camelizeAux (d :: rest)

/-- snake_case to camelCase conversion of `add-missing-tables-to-schemas.py`:
`re.sub(r'_([a-z])', lambda m: m.group(1).upper(), name)`. -/
def camelize (s : String) : String := String.mk (camelizeAux s.data)

/-! ## 4.1 Type mapping: `map_db_type_to_drizzle` (complete-drizzle-from-db.py)
and `map_pg_type_to_drizzle` (add-missing-tables-to-schemas.py) -/

/-- Python truthiness of a JSON integer-or-null field. -/
def truthyInt : Option Int → Bool
  | none => false
  | some n => n != 0

/-- Interpolation of a JSON integer field into an f-string (only reached on
`some`). -/
def optIntStr : Option Int → String
  | none => "None"
  | some n => toString n

/-- `map_db_type_to_drizzle` of `complete-drizzle-from-db.py` (lines 85-115):
maps a DB column record (from `DB_architecture.json`) to a Drizzle column
constructor expression, falling back to `text` for unrecognized udt names. -/
def map_db_type_to_drizzle (col : DbColumn) : String :=
  if col.udt_name = "uuid" then "uuid(\x27" ++ col.name ++ "\x27)"
  else if col.udt_name = "text" then "text(\x27" ++ col.name ++ "\x27)"
  else if col.udt_name = "bool" then "boolean(\x27" ++ col.name ++ "\x27)"
  else if col.udt_name ∈ ["int4", "integer", "int2", "smallint"] then
    "integer(\x27" ++ col.name ++ "\x27)"
  else if col.udt_name = "timestamptz" then
    "timestamp(\x27" ++ col.name ++ "\x27, \x7b withTimezone: true \x7d)"
  else if col.udt_name = "timestamp" then "timestamp(\x27" ++ col.name ++ "\x27)"
  else if col.udt_name = "date" then "date(\x27" ++ col.name ++ "\x27)"
  else if col.udt_name ∈ ["numeric", "decimal"] then
    if truthyInt col.numeric_precision && truthyInt col.numeric_scale then
      "numeric(\x27" ++ col.name ++ "\x27, \x7b precision: " ++
        optIntStr col.numeric_precision ++ ", scale: " ++
        optIntStr col.numeric_scale ++ " \x7d)"
    else "numeric(\x27" ++ col.name ++ "\x27)"
  else if col.udt_name = "varchar" then
    if truthyInt col.char_max_length then
      "varchar(\x27" ++ col.name ++ "\x27, \x7b length: " ++
        optIntStr col.char_max_length ++ " \x7d)"
    else "varchar(\x27" ++ col.name ++ "\x27)"
  else if col.udt_name ∈ ["json", "jsonb"] then "jsonb(\x27" ++ col.name ++ "\x27)"
  else "text(\x27" ++ col.name ++ "\x27)"

/-- `map_pg_type_to_drizzle` of `add-missing-tables-to-schemas.py` (lines
35-66). The loader of that script keeps every field as raw delimited text, so
truthiness is string-nonemptiness and the qualifiers are interpolated raw. -/
def map_pg_type_to_drizzle (col : PgColumn) : String :=
  if col.udt_name = "uuid" then "uuid(\x27" ++ col.name ++ "\x27)"
  else if col.udt_name = "text" then "text(\x27" ++ col.name ++ "\x27)"
  else if col.udt_name = "bool" then "boolean(\x27" ++ col.name ++ "\x27)"
  else if col.udt_name ∈ ["int4", "integer"] then "integer(\x27" ++ col.name ++ "\x27)"
  else if col.udt_name ∈ ["timestamptz"] then
    "timestamp(\x27" ++ col.name ++ "\x27, \x7b withTimezone: true \x7d)"
  else if col.udt_name = "timestamp" then "timestamp(\x27" ++ col.name ++ "\x27)"
  else if col.udt_name = "date" then "date(\x27" ++ col.name ++ "\x27)"
  else if col.udt_name ∈ ["numeric", "decimal"] then
    if col.numeric_precision ≠ "" ∧ col.numeric_scale ≠ "" then
      "numeric(\x27" ++ col.name ++ "\x27, \x7b precision: " ++
        col.numeric_precision ++ ", scale: " ++ col.numeric_scale ++ " \x7d)"
    else "numeric(\x27" ++ col.name ++ "\x27)"
  else if col.udt_name = "varchar" then
    if col.char_max_length ≠ "" then
      "varchar(\x27" ++ col.name ++ "\x27, \x7b length: " ++
        col.char_max_length ++ " \x7d)"
    else "varchar(\x27" ++ col.name ++ "\x27)"
  else if col.udt_name ∈ ["json", "jsonb"] then "jsonb(\x27" ++ col.name ++ "\x27)"
  else "text(\x27" ++ col.name ++ "\x27)"

/-- The set of udt names recognized by the two type-mapping functions (union of
their branch keys; every other udt name falls through to the `text` fallback). -/
def recognizedUdts : List String :=
  ["uuid", "text", "bool", "int4", "integer", "int2", "smallint",
   "timestamptz", "timestamp", "date", "numeric", "decimal", "varchar",
   "json", "jsonb"]

/-- The Drizzle constructor name of the canonical token `map_db_type_to_drizzle`
produces (the prefix of the rendered expression before the first parenthesis). -/
def drizzleCtor (col : DbColumn) : String :=
  String.mk (takeUntilSub '(' [] (map_db_type_to_drizzle col).data)

/-! ## 4.4 Reconciler: the missing-column diff of `complete-drizzle-from-db.py` -/

/-- Column-name set of a database table (Python set comprehension
`{col['name'] for col in ...}`). -/
def dbColNames (t : DbTable) : List String := (t.columns.map (·.name)).dedup

/-- Column-name set of a declaration table
(`{col['column_name'] for col in ...}`). -/
def dzColNames (t : DzTable) : List String := (t.columns.map (·.column_name)).dedup

/-- Lookup of `db_arch['tables'][t]`. -/
def findDbTable (db : List DbTable) (t : String) : Option DbTable :=
  db.find? (fun tab => tab.name == t)

/-- Lookup of `dz_arch['tables'][t]`. -/
def findDzTable (dz : List DzTable) (t : String) : Option DzTable :=
  dz.find? (fun tab => tab.table_name == t)

/-- Database-side column-name set of table `t` in the model. -/
def dbColNamesOf (db : List DbTable) (t : String) : List String :=
  ((findDbTable db t).map dbColNames).getD []

/-- Declaration-side column-name set of table `t` in the model. -/
def dzColNamesOf (dz : List DzTable) (t : String) : List String :=
  ((findDzTable dz t).map dzColNames).getD []

/-- `missing = db_cols - dz_cols` for one table. -/
def missingColsFor (db : List DbTable) (dz : List DzTable) (t : String) : List String :=
  listDiff (dbColNamesOf db t) (dzColNamesOf dz t)

/-- The `tables_with_missing_cols` loop of `complete-drizzle-from-db.py`
(lines 49-65): iterate the common tables in `sorted` order; for each, record
the alphabetically-sorted missing-column names when any are missing. -/
def tablesWithMissingCols (db : List DbTable) (dz : List DzTable) :
    List (String × List String) :=
  (sortStrings (listInter ((db.map (·.name)).dedup) ((dz.map (·.table_name)).dedup))).filterMap
    (fun t =>
      let missing := missingColsFor db dz t
      if missing.isEmpty then none else some (t, sortStrings missing))

/-! ## 4.5 Codegen renderer of `complete-drizzle-from-db.py` (top-5 loop) -/

/-- `default`-expression classification of the codegen loop (lines 147-156).
`none` models the `IndexError` Python would raise when
`default.replace(...).split()` yields no token; `some mods` is the list of
default modifiers appended (possibly empty: unclassified default). -/
def cdDefaultMods (d : String) : Option (List String) :=
  if containsSub d "gen_random_uuid" then some [".default(sql\x60gen_random_uuid()\x60)"]
  else if containsSub d "now()" || containsSub d "CURRENT_TIMESTAMP" then
    some [".defaultNow()"]
  else
    match pyFirstToken (pyReplace (pyReplace d "\x27" "") "::" " ").data with
    | none => none
    | some tok =>
      if isDigitChars tok then
        some [".default(\x27" ++
          String.mk (stripChar sq (takeUntilSub ':' [':'] d.data)) ++ "\x27)"]
      else if d = "true" ∨ d = "false" then some [".default(" ++ d ++ ")"]
      else some []

/-- The full modifier list of one generated column statement (lines 142-156):
`.notNull()` when the column is not nullable, then the default modifier. -/
def cdModifiers (col : DbColumn) : Option (List String) :=
  let base := if col.is_nullable then [] else [".notNull()"]
  match col.column_default with
  | none => some base
  | some d => if d = "" then some base else (cdDefaultMods d).map (fun m => base ++ m)

/-- One generated Drizzle column statement of the codegen loop (lines 158-163);
`none` models the run aborting with the `IndexError` of `cdDefaultMods`. -/
def cdLine (col : DbColumn) : Option String :=
  (cdModifiers col).map (fun mods =>
    "  " ++ pyReplace col.name "-" "_" ++ ": " ++ map_db_type_to_drizzle col ++
      String.join mods ++ ",  // " ++
      (if col.is_nullable then "nullable" else "NOT NULL"))

/-- The column statements generated for one table (lines 136-163): iterate the
table's catalog columns in stored (ordinal) order, emitting a statement for
each column whose name is in the missing set. -/
def cdColLines (dbColumns : List DbColumn) (missingNames : List String) :
    Option (List String) :=
  (dbColumns.filter (fun c => decide (c.name ∈ missingNames))).mapM cdLine

/-- Stable insertion of a diff entry into a list ordered by descending
missing-column count (Python `sorted(..., key=missing_count, reverse=True)`). -/
def insertByCountDesc (x : String × List String) :
    List (String × List String) → List (String × List String)
  | [] => [x]
  | y :: ys =>
    if x.2.length < y.2.length ∨ x.2.length = y.2.length then y :: insertByCountDesc x ys
    else x :: y :: ys

/-- Python `sorted(items, key=lambda x: x[1]['missing_count'], reverse=True)`:
stable sort by descending missing-column count. -/
def sortByCountDesc (l : List (String × List String)) : List (String × List String) :=
  l.foldr insertByCountDesc []

/-- A run of 70 `=` characters (`'='*70`). -/
def sep70 : String := String.mk (List.replicate 70 (Char.ofNat 61))

/-- The lines written for one table of the top-5 codegen loop (lines 126-163):
block header, then one statement per missing column in catalog ordinal order. -/
def cdTableBlock (db : List DbTable) (dz : List DzTable)
    (entry : String × List String) : Option (List String) :=
  let srcFile := ((findDzTable dz entry.1).map (·.source_file)).getD "NECUNOSCUT"
  let dbColumns := ((findDbTable db entry.1).map (·.columns)).getD []
  (cdColLines dbColumns entry.2).map (fun colLines =>
    ["", sep70,
     "// TABEL: " ++ entry.1 ++ " - " ++ toString entry.2.length ++ " coloane lipsă",
     "// Fișier: " ++ srcFile,
     sep70, ""] ++ colLines)

/-- The full generated codegen artifact of `complete-drizzle-from-db.py`
(lines 120-163), as the ordered list of written lines. -/
def cdCodegen (db : List DbTable) (dz : List DzTable) : Option (List String) :=
  (((sortByCountDesc (tablesWithMissingCols db dz)).take 5).mapM
      (cdTableBlock db dz)).map (fun blocks =>
    ["// COD GENERAT AUTOMAT PENTRU COMPLETARE DRIZZLE",
     "// Adaugă aceste coloane în fișierele respective", ""] ++ blocks.flatten)

/-! ## Codegen renderer of `add-missing-tables-to-schemas.py` -/

/-- Head of Python `s.startswith("'")`. -/
def startsWithQuote (d : String) : Bool :=
  match d.data with
  | [] => false
  | c :: _ => c == sq

/-- Python `s.endswith("'")`. -/
def endsWithQuote (d : String) : Bool :=
  match d.data.getLast? with
  | some c => c == sq
  | none => false

/-- Python `default_val[1:-1].split("::")[0]`. -/
def amQuotedVal (d : String) : String :=
  String.mk (takeUntilSub ':' [':'] ((d.data.drop 1).dropLast))

/-- `default`-expression classification of `generate_table_definition`
(`add-missing-tables-to-schemas.py` lines 81-98). Note that for a
current-timestamp default the generated modifier depends on whether the type
token carries `withTimezone`. -/
def amDefaultMods (d : String) (drizzleType : String) : List String :=
  if containsSub d "gen_random_uuid" then [".default(sql\x60gen_random_uuid()\x60)"]
  else if containsSub d "now()" || containsSub d "CURRENT_TIMESTAMP" then
    if containsSub drizzleType "withTimezone" then [".defaultNow()"]
    else [".default(sql\x60now()\x60)"]
  else if d ≠ "" ∧ d ≠ "NULL" then
    if isDigitString d then [".default(" ++ d ++ ")"]
    else if d = "true" ∨ d = "false" then [".default(" ++ d ++ ")"]
    else if startsWithQuote d ∧ endsWithQuote d then
      [".default(\x27" ++ amQuotedVal d ++ "\x27)"]
    else []
  else []

/-- The modifier list of one column of `generate_table_definition`
(lines 77-98). -/
def amModifiers (col : PgColumn) (drizzleType : String) : List String :=
  (if col.is_nullable then [] else [".notNull()"]) ++
    (if col.column_default = "" then [] else amDefaultMods col.column_default drizzleType)

/-- One generated column line of `generate_table_definition` (lines 73-101). -/
def amColLine (col : PgColumn) : String :=
  let dt := map_pg_type_to_drizzle col
  "  " ++ camelize col.name ++ ": " ++ dt ++ String.join (amModifiers col dt) ++ ","

/-- `generate_table_definition` of `add-missing-tables-to-schemas.py`
(lines 68-104). -/
def generate_table_definition (table_name : String) (columns : List PgColumn) : String :=
  String.intercalate "\n"
    (("export const " ++ table_name ++ " = pgTable(\x27" ++ table_name ++ "\x27, \x7b")
      :: (columns.map amColLine ++ ["\x7d);"]))

/-! ## verify-columns-exact.py and audit-missing-columns.py -/

/-- Aggregate counters of the `main` loop of `verify-columns-exact.py`. -/
structure VerifyTotals where
  tables_with_issues : Nat
  total_missing_columns : Nat
deriving DecidableEq, Repr

/-- One iteration of the per-table loop of `verify-columns-exact.py`
(lines 146-166): a table counts as having issues when it has missing *or*
extra columns; only missing columns are added to the missing total. -/
def verifyTableStep (acc : VerifyTotals) (dbCols dzCols : List String) : VerifyTotals :=
  let missing := listDiff dbCols dzCols
  let extra := listDiff dzCols dbCols
  if missing.isEmpty && extra.isEmpty then acc
  else ⟨acc.tables_with_issues + 1, acc.total_missing_columns + missing.length⟩

/-- Column set of one table in a name-only schema mapping. -/
def lookupCols (m : List (String × List String)) (t : String) : List String :=
  ((m.find? (fun p => p.1 == t)).map (·.2)).getD []

/-- The summary counters computed by `main` of `verify-columns-exact.py` over
the tables present in both models (iterated in `sorted` order). -/
def verifySummary (dbm dzm : List (String × List String)) : VerifyTotals :=
  (sortStrings (listInter ((dbm.map (·.1)).dedup) ((dzm.map (·.1)).dedup))).foldl
    (fun acc t => verifyTableStep acc (lookupCols dbm t).dedup (lookupCols dzm t).dedup)
    ⟨0, 0⟩

/-- Per-table completeness test of `audit-missing-columns.py` (lines 121-144):
a table is incomplete exactly when some database column name is absent from
the columns extracted from the schema file; extra declaration-side columns are
never even computed. -/
def auditTableIncomplete (dbCols drizzleCols : List String) : Bool :=
  !(listDiff dbCols.dedup drizzleCols).isEmpty

/-! ## Database-model extractor (`extract-complete-db-architecture.py`),
columns query result parsing (lines 88-105) -/

/-- Result of parsing one delimited catalog row of the columns query. -/
inductive RowParse where
  | short
  | err
  | ok (table : String) (col : DbColumn)
deriving DecidableEq, Repr

/-- Decimal digits to a number; `none` on a non-digit character. -/
def natOfDigitsAux : List Char → Nat → Option Nat
  | [], acc => some acc
  | c :: rest, acc =>
    if c.isDigit then natOfDigitsAux rest (acc * 10 + (c.toNat - 48)) else none

/-- Parse a nonempty all-digit character list as a number. -/
def natOfDigits (l : List Char) : Option Nat :=
  match l with
  | [] => none
  | _ :: _ => natOfDigitsAux l 0

/-- Python `int(s)` on the decimal strings the catalog emits (optional minus
sign, digits); `none` models `ValueError`. -/
def pyIntChars (l : List Char) : Option Int :=
  match l with
  | c :: rest =>
    if c == Char.ofNat 45 then (natOfDigits rest).map (fun n => -(n : Int))
    else (natOfDigits l).map (fun n => (n : Int))
  | [] => none

/-- Python `int(s) if s else None`; outer `none` models the `ValueError` of
`int` on a non-numeric nonempty field. -/
def pyIntOpt (s : String) : Option (Option Int) :=
  if s = "" then some none
  else (pyIntChars s.data).map some

/-- Parse one row of the columns query (lines 89-103): rows with fewer than 10
fields are skipped (`short`); a non-numeric numeric field would raise
(`err`); otherwise a column record grouped under its table name. -/
def parseColRow (parts : List String) : RowParse :=
  if parts.length ≥ 10 then
    match pyIntOpt (parts.getD 2 ""), pyIntOpt (parts.getD 4 ""),
        pyIntOpt (parts.getD 5 ""), pyIntOpt (parts.getD 6 "") with
    | some pos, some cm, some np, some ns =>
      .ok (parts.getD 0 "")
        { name := parts.getD 1 ""
          position := pos
          data_type := parts.getD 3 ""
          char_max_length := cm
          numeric_precision := np
          numeric_scale := ns
          is_nullable := parts.getD 7 "" = "YES"
          column_default := if parts.getD 8 "" = "" then none else some (parts.getD 8 "")
          udt_name := parts.getD 9 "" }
    | _, _, _, _ => .err
  else .short

/-- `columns_by_table[table_name].append(col)` on a `defaultdict(list)` modeled
as an association list in first-insertion key order. -/
def insertColGroup (m : List (String × List DbColumn)) (t : String) (c : DbColumn) :
    List (String × List DbColumn) :=
  match m with
  | [] => [(t, [c])]
  | (k, cs) :: rest =>
    if k = t then (k, cs ++ [c]) :: rest else (k, cs) :: insertColGroup rest t c

/-- The `columns_by_table` grouping loop (lines 88-103): malformed rows are
skipped silently; a `ValueError` (`err` row) aborts the run (`none`). -/
def columnsByTable (rows : List (List String)) : Option (List (String × List DbColumn)) :=
  rows.foldlM
    (fun m parts =>
      match parseColRow parts with
      | .short => some m
      | .err => none
      | .ok t c => some (insertColGroup m t c))
    []

/-- `statistics['total_columns']` (line 298): the only aggregate the final
report derives from the grouped columns. -/
def totalColumns (m : List (String × List DbColumn)) : Nat :=
  (m.map (·.2.length)).sum

/-- Everything the extractor's final output derives from the columns query:
the grouped columns (embedded per table into `architecture['tables']`) and the
column count statistic (surfaced in the printed report). -/
def extractColsOutput (rows : List (List String)) :
    Option (List (String × List DbColumn) × Nat) :=
  (columnsByTable rows).map (fun m => (m, totalColumns m))

/-! ## Declaration-model extractor (`extract-drizzle-architecture.py`):
the tables dictionary of `main` -/

/-- `architecture['tables'][table['table_name']] = table` (line 288): Python
dict assignment — replace in place when the key exists, else append. -/
def assignTable (m : List (String × DzTable)) (t : DzTable) : List (String × DzTable) :=
  match m with
  | [] => [(t.table_name, t)]
  | (k, v) :: rest =>
    if k = t.table_name then (k, t) :: rest else (k, v) :: assignTable rest t

/-- The final tables dictionary: fold `assignTable` over `all_tables`
(lines 287-288). -/
def tablesDict (ts : List DzTable) : List (String × DzTable) :=
  ts.foldl assignTable []

/-- `all_tables` as accumulated by `main` (lines 254-284): files processed in
`sorted` filename order, `enums.ts` skipped, each file's tables appended in
textual (match) order. -/
def allTablesOf (files : List (String × List DzTable)) : List DzTable :=
  ((files.insertionSort (fun a b => StrLeRel a.1 b.1)).filter
      (fun f => decide (f.1 ≠ "enums.ts"))).flatMap (·.2)

/-! ## The full diff-plus-codegen pipeline (for the determinism claim) -/

/-- One full run of `complete-drizzle-from-db.py`'s reconciliation core: the
ordered diff-entry list and the generated codegen artifact. -/
def reconcilerRun (db : List DbTable) (dz : List DzTable) :
    List (String × List String) × Option (List String) :=
  (tablesWithMissingCols db dz, cdCodegen db dz)

theorem strLeChars_total (as bs : List Char) :
    strLeChars as bs = true ∨ strLeChars bs as = true := by
  induction as generalizing bs with
  | nil => left; rfl
  | cons a as ih =>
    cases bs with
    | nil => right; rfl
    | cons b bs =>
      simp only [strLeChars]
      rcases Nat.lt_trichotomy a.toNat b.toNat with h | h | h
      · left; simp [h]
      · have h2 : ¬ a.toNat < b.toNat := by omega
        have h3 : ¬ b.toNat < a.toNat := by omega
        rcases ih bs with h4 | h4
        · left; simp [h2, h3, h4]
        · right; simp [h2, h3, h4]
      · right; simp [h]

theorem strLeChars_trans (as bs cs : List Char) (h1 : strLeChars as bs = true)
    (h2 : strLeChars bs cs = true) : strLeChars as cs = true := by
  induction as generalizing bs cs with
  | nil => rfl
  | cons a as ih =>
    cases bs with
    | nil => simp [strLeChars] at h1
    | cons b bs =>
      cases cs with
      | nil => simp [strLeChars] at h2
      | cons c cs =>
        simp only [strLeChars] at h1 h2 ⊢
        rcases Nat.lt_trichotomy a.toNat b.toNat with hab | hab | hab
        · rcases Nat.lt_trichotomy b.toNat c.toNat with hbc | hbc | hbc
          · simp [show a.toNat < c.toNat by omega]
          · simp [show a.toNat < c.toNat by omega]
          · simp [show ¬ b.toNat < c.toNat by omega, show c.toNat < b.toNat from hbc] at h2
        · rcases Nat.lt_trichotomy b.toNat c.toNat with hbc | hbc | hbc
          · simp [show a.toNat < c.toNat by omega]
          · have g1 : ¬ a.toNat < b.toNat := by omega
            have g2 : ¬ b.toNat < a.toNat := by omega
            have g3 : ¬ b.toNat < c.toNat := by omega
            have g4 : ¬ c.toNat < b.toNat := by omega
            have g5 : ¬ a.toNat < c.toNat := by omega
            have g6 : ¬ c.toNat < a.toNat := by omega
            rw [if_neg g1, if_neg g2] at h1
            rw [if_neg g3, if_neg g4] at h2
            rw [if_neg g5, if_neg g6]
            exact ih bs cs h1 h2
          · simp [show ¬ b.toNat < c.toNat by omega, show c.toNat < b.toNat from hbc] at h2
        · simp [show ¬ a.toNat < b.toNat by omega, show b.toNat < a.toNat from hab] at h1

instance : IsTotal String StrLeRel :=
  ⟨fun a b => strLeChars_total a.data b.data⟩

instance : IsTrans String StrLeRel :=
  ⟨fun a b c => strLeChars_trans a.data b.data c.data⟩

theorem sortStrings_sorted (l : List String) : (sortStrings l).Sorted StrLeRel :=
  List.sorted_insertionSort StrLeRel l

theorem mem_sortStrings {x : String} {l : List String} :
    x ∈ sortStrings l ↔ x ∈ l :=
  (List.perm_insertionSort StrLeRel l).mem_iff

/-! ## Helper lemmas -/

theorem mem_listDiff {x : String} {a b : List String} :
    x ∈ listDiff a b ↔ x ∈ a ∧ x ∉ b := by
  simp [listDiff]

theorem listDiff_eq_nil_iff {a b : List String} :
    listDiff a b = [] ↔ ∀ x ∈ a, x ∈ b := by
  constructor
  · intro h x hx
    by_contra hnb
    have : x ∈ listDiff a b := mem_listDiff.mpr ⟨hx, hnb⟩
    simp [h] at this
  · intro h
    apply List.eq_nil_iff_forall_not_mem.mpr
    intro x hx
    rcases mem_listDiff.mp hx with ⟨h1, h2⟩
    exact h2 (h x h1)

theorem mem_tablesWithMissingCols {db : List DbTable} {dz : List DzTable}
    {e : String × List String} (he : e ∈ tablesWithMissingCols db dz) :
    e.2 = sortStrings (missingColsFor db dz e.1) ∧
    missingColsFor db dz e.1 ≠ [] := by
  rcases List.mem_filterMap.mp he with ⟨t, _, heq⟩
  by_cases hm : (missingColsFor db dz t).isEmpty
  · simp [hm] at heq
  · simp only [hm, Bool.false_eq_true, if_false, Option.some.injEq] at heq
    subst heq
    refine ⟨rfl, ?_⟩
    intro hnil
    simp [hnil] at hm

theorem map_fst_missingFilterMap (l : List String) (F : String → List String) :
    ((l.filterMap (fun t =>
        if (F t).isEmpty then none else some (t, sortStrings (F t)))).map Prod.fst)
      = l.filter (fun t => !(F t).isEmpty) := by
  induction l with
  | nil => rfl
  | cons t rest ih =>
    simp only [List.isEmpty_iff] at ih
    by_cases hm : F t = []
    · simp [List.filterMap_cons, List.filter_cons, List.isEmpty_iff, hm, ih]
    · simp [List.filterMap_cons, List.filter_cons, List.isEmpty_iff, hm, ih]

theorem containsSubAux_append_right (p : Char) (ps xs ys : List Char)
    (h : containsSubAux p ps ys = true) :
    containsSubAux p ps (xs ++ ys) = true := by
  induction xs with
  | nil => simpa using h
  | cons x xs ih =>
    simp only [List.cons_append, containsSubAux, Bool.or_eq_true]
    right
    exact ih

theorem containsSub_append_right (a b pat : String) (h : containsSub b pat = true) :
    containsSub (a ++ b) pat = true := by
  unfold containsSub at *
  cases hp : pat.data with
  | nil => rfl
  | cons p ps =>
    rw [hp] at h
    have hdata : (a ++ b).data = a.data ++ b.data := rfl
    rw [hdata]
    exact containsSubAux_append_right p ps a.data b.data h

/-! ## Claim theorems -/

/-- C1: the type-mapping functions are pure total Lean functions returning
exactly one canonical token; for every udt name outside the recognized set
both `map_db_type_to_drizzle` and `map_pg_type_to_drizzle` fall back to the
`text` token, and repeated application to identical input yields identical
tokens. -/
theorem type_mapping_total_fallback (col : DbColumn) (pcol : PgColumn)
    (h1 : col.udt_name ∉ recognizedUdts) (h2 : pcol.udt_name ∉ recognizedUdts) :
    map_db_type_to_drizzle col = "text(\x27" ++ col.name ++ "\x27)" ∧
    map_pg_type_to_drizzle pcol = "text(\x27" ++ pcol.name ++ "\x27)" ∧
    map_db_type_to_drizzle col = map_db_type_to_drizzle col ∧
    map_pg_type_to_drizzle pcol = map_pg_type_to_drizzle pcol := by
  simp only [recognizedUdts, List.mem_cons, List.not_mem_nil, or_false, not_or] at h1 h2
  obtain ⟨a1, a2, a3, a4, a5, a6, a7, a8, a9, a10, a11, a12, a13, a14, a15⟩ := h1
  obtain ⟨b1, b2, b3, b4, b5, b6, b7, b8, b9, b10, b11, b12, b13, b14, b15⟩ := h2
  refine ⟨?_, ?_, rfl, rfl⟩
  · simp [map_db_type_to_drizzle, a1, a2, a3, a4, a5, a6, a7, a8, a9, a10, a11,
      a12, a13, a14, a15]
  · simp [map_pg_type_to_drizzle, b1, b2, b3, b4, b5, b6, b7, b8, b9, b10, b11,
      b12, b13, b14, b15]

/-- Witness for C1 at a concrete unrecognized udt name (`tsvector`). -/
theorem type_mapping_total_fallback_witness :
    map_db_type_to_drizzle
        { name := "doc", position := some 1, data_type := "tsvector",
          char_max_length := none, numeric_precision := none,
          numeric_scale := none, is_nullable := true, column_default := none,
          udt_name := "tsvector" } = "text(\x27doc\x27)" ∧
    map_pg_type_to_drizzle
        { name := "doc", data_type := "tsvector", char_max_length := "",
          numeric_precision := "", numeric_scale := "", is_nullable := true,
          column_default := "", udt_name := "tsvector" } = "text(\x27doc\x27)" ∧
    map_db_type_to_drizzle
        { name := "doc", position := some 1, data_type := "tsvector",
          char_max_length := none, numeric_precision := none,
          numeric_scale := none, is_nullable := true, column_default := none,
          udt_name := "tsvector" } =
      map_db_type_to_drizzle
        { name := "doc", position := some 1, data_type := "tsvector",
          char_max_length := none, numeric_precision := none,
          numeric_scale := none, is_nullable := true, column_default := none,
          udt_name := "tsvector" } ∧
    map_pg_type_to_drizzle
        { name := "doc", data_type := "tsvector", char_max_length := "",
          numeric_precision := "", numeric_scale := "", is_nullable := true,
          column_default := "", udt_name := "tsvector" } =
      map_pg_type_to_drizzle
        { name := "doc", data_type := "tsvector", char_max_length := "",
          numeric_precision := "", numeric_scale := "", is_nullable := true,
          column_default := "", udt_name := "tsvector" } :=
  type_mapping_total_fallback _ _ (by decide) (by decide)

/-- C3: the reconciler core is deterministic — two runs of the diff and the
codegen renderer on equal pairs of schema models produce identical ordered
diff-entry lists and identical generated artifacts. -/
theorem reconciler_deterministic (db db' : List DbTable) (dz dz' : List DzTable)
    (h1 : db = db') (h2 : dz = dz') :
    reconcilerRun db dz = reconcilerRun db' dz' := by
  subst h1; subst h2; rfl

/-- Witness for C3 at a concrete pair of models. -/
theorem reconciler_deterministic_witness :
    reconcilerRun
        [⟨"t", [{ name := "a", position := some 1, data_type := "text",
                  char_max_length := none, numeric_precision := none,
                  numeric_scale := none, is_nullable := true,
                  column_default := none, udt_name := "text" }]⟩]
        [⟨"tVar", "t", "x.schema.ts", []⟩] =
      reconcilerRun
        [⟨"t", [{ name := "a", position := some 1, data_type := "text",
                  char_max_length := none, numeric_precision := none,
                  numeric_scale := none, is_nullable := true,
                  column_default := none, udt_name := "text" }]⟩]
        [⟨"tVar", "t", "x.schema.ts", []⟩] :=
  reconciler_deterministic _ _ _ _ rfl rfl

/-- C2: for a table present in both models whose column name sets are
identical (and whose per-column canonical types agree), the diff emits no
entry for that table: `tables_with_missing_cols` records nothing for it and
the per-table step of `verify-columns-exact.py` records neither an issue nor
missing columns. -/
theorem identical_columns_no_diff (db : List DbTable) (dz : List DzTable)
    (t : String) (dbT : DbTable) (dzT : DzTable) (acc : VerifyTotals)
    (hdb : findDbTable db t = some dbT) (hdz : findDzTable dz t = some dzT)
    (hnames : ∀ x, x ∈ dbT.columns.map (·.name) ↔ x ∈ dzT.columns.map (·.column_name))
    (_htypes : ∀ c ∈ dbT.columns, ∀ c2 ∈ dzT.columns,
      c.name = c2.column_name → drizzleCtor c = c2.drizzle_type) :
    (tablesWithMissingCols db dz).filter (fun e => e.1 == t) = [] ∧
    verifyTableStep acc (dbColNames dbT) (dzColNames dzT) = acc := by
  have hmiss : listDiff (dbColNames dbT) (dzColNames dzT) = [] := by
    apply listDiff_eq_nil_iff.mpr
    intro x hx
    exact List.mem_dedup.mpr ((hnames x).mp (List.mem_dedup.mp hx))
  have hextra : listDiff (dzColNames dzT) (dbColNames dbT) = [] := by
    apply listDiff_eq_nil_iff.mpr
    intro x hx
    exact List.mem_dedup.mpr ((hnames x).mpr (List.mem_dedup.mp hx))
  have hmissFor : missingColsFor db dz t = [] := by
    unfold missingColsFor dbColNamesOf dzColNamesOf
    rw [hdb, hdz]
    exact hmiss
  constructor
  · apply List.eq_nil_iff_forall_not_mem.mpr
    intro e he'
    rw [List.mem_filter] at he'
    obtain ⟨he, hbeq⟩ := he'
    have het : e.1 = t := by simpa using hbeq
    rcases mem_tablesWithMissingCols he with ⟨_, hne⟩
    rw [het] at hne
    exact hne hmissFor
  · simp [verifyTableStep, hmiss, hextra]

/-- Witness for C2: a table `t` declared on both sides with the single column
`a` of matching canonical type `uuid`. -/
theorem identical_columns_no_diff_witness :
    (tablesWithMissingCols
        [⟨"t", [{ name := "a", position := some 1, data_type := "uuid",
                  char_max_length := none, numeric_precision := none,
                  numeric_scale := none, is_nullable := false,
                  column_default := none, udt_name := "uuid" }]⟩]
        [⟨"tVar", "t", "x.schema.ts", [⟨"a", "a", "uuid"⟩]⟩]).filter
        (fun e => e.1 == "t") = [] ∧
    verifyTableStep ⟨0, 0⟩
        (dbColNames ⟨"t",
          [{ name := "a", position := some 1, data_type := "uuid",
             char_max_length := none, numeric_precision := none,
             numeric_scale := none, is_nullable := false,
             column_default := none, udt_name := "uuid" }]⟩)
        (dzColNames ⟨"tVar", "t", "x.schema.ts", [⟨"a", "a", "uuid"⟩]⟩) = ⟨0, 0⟩ :=
  identical_columns_no_diff _ _ "t" _ _ _ (by decide) (by decide)
    (fun _ => Iff.rfl) (by decide)

/-- C4 counterexample: with reference table `t` whose catalog columns are, in
ordinal order, `b` (position 1) then `a` (position 2) and both missing from
the candidate, the diff lists the missing columns as `["a", "b"]` —
alphabetically — while catalog ordinal order is `["b", "a"]`; so entries are
not emitted in ordinal column order. -/
theorem diff_order_counterexample :
    tablesWithMissingCols
        [⟨"t", [{ name := "b", position := some 1, data_type := "text",
                  char_max_length := none, numeric_precision := none,
                  numeric_scale := none, is_nullable := true,
                  column_default := none, udt_name := "text" },
                { name := "a", position := some 2, data_type := "text",
                  char_max_length := none, numeric_precision := none,
                  numeric_scale := none, is_nullable := true,
                  column_default := none, udt_name := "text" }]⟩]
        [⟨"tVar", "t", "x.schema.ts", []⟩] = [("t", ["a", "b"])] ∧
    (DbTable.mk "t"
        [{ name := "b", position := some 1, data_type := "text",
           char_max_length := none, numeric_precision := none,
           numeric_scale := none, is_nullable := true,
           column_default := none, udt_name := "text" },
         { name := "a", position := some 2, data_type := "text",
           char_max_length := none, numeric_precision := none,
           numeric_scale := none, is_nullable := true,
           column_default := none, udt_name := "text" }]).columns.map (·.name) =
      ["b", "a"] ∧
    (["a", "b"] : List String) ≠ ["b", "a"] := by
  refine ⟨by decide, by decide, by decide⟩

/-- C4 (amended): within the missing-column diff, entries are emitted with
tables in alphabetical (sorted) name order, and within a table the missing
column names are listed in alphabetical (sorted) order — not catalog ordinal
order. -/
theorem diff_order_amended (db : List DbTable) (dz : List DzTable) :
    ((tablesWithMissingCols db dz).map Prod.fst).Sorted StrLeRel ∧
    (tablesWithMissingCols db dz).Forall (fun e => e.2.Sorted StrLeRel) := by
  constructor
  · have hs : (tablesWithMissingCols db dz).map Prod.fst =
        (sortStrings (listInter ((db.map (·.name)).dedup)
            ((dz.map (·.table_name)).dedup))).filter
          (fun t => !(missingColsFor db dz t).isEmpty) :=
      map_fst_missingFilterMap _ _
    rw [hs]
    exact List.Pairwise.sublist (List.filter_sublist _) (sortStrings_sorted _)
  · apply List.forall_iff_forall_mem.mpr
    intro e he
    rcases mem_tablesWithMissingCols he with ⟨h2, _⟩
    rw [h2]
    exact sortStrings_sorted _

/-- C5 counterexample: table `t` has the single database column `a` and the
declaration carries `a` plus the extra column `b`; the missing set is empty —
the only discrepancy is the extra column — yet `verify-columns-exact.py`
counts the table in `tables_with_issues` (summary `⟨1, 0⟩`, not `⟨0, 0⟩`). -/
theorem extra_columns_advisory_counterexample :
    listDiff ["a"] ["a", "b"] = [] ∧
    listDiff ["a", "b"] ["a"] = ["b"] ∧
    verifySummary [("t", ["a"])] [("t", ["a", "b"])] = ⟨1, 0⟩ := by
  refine ⟨by decide, by decide, by decide⟩

/-- C5 (amended): extra declaration-side columns never affect the
complete/incomplete classification of `audit-missing-columns.py` (which only
computes missing columns), and they add nothing to the missing-column total of
`verify-columns-exact.py`; but in the latter script a table whose only
discrepancy is extra columns is still counted in `tables_with_issues`. -/
theorem extra_columns_advisory_amended (dbCols dzCols : List String)
    (acc : VerifyTotals) (hmiss : listDiff dbCols dzCols = [])
    (hextra : listDiff dzCols dbCols ≠ []) :
    auditTableIncomplete dbCols dzCols = false ∧
    verifyTableStep acc dbCols dzCols =
      ⟨acc.tables_with_issues + 1, acc.total_missing_columns⟩ := by
  have hsub : ∀ x ∈ dbCols, x ∈ dzCols := listDiff_eq_nil_iff.mp hmiss
  have hdedup : listDiff dbCols.dedup dzCols = [] := by
    apply listDiff_eq_nil_iff.mpr
    intro x hx
    exact hsub x (List.mem_dedup.mp hx)
  constructor
  · simp [auditTableIncomplete, hdedup]
  · simp [verifyTableStep, hmiss, hextra]

/-- Witness for C5 (amended) at the concrete counterexample table. -/
theorem extra_columns_advisory_amended_witness :
    auditTableIncomplete ["a"] ["a", "b"] = false ∧
    verifyTableStep ⟨0, 0⟩ ["a"] ["a", "b"] = ⟨1, 0⟩ :=
  extra_columns_advisory_amended ["a"] ["a", "b"] ⟨0, 0⟩ (by decide) (by decide)

/-- C6 counterexample: column `a` exists in both models for table `t` with
disagreeing canonical types (`uuid` on the database side versus `text` in the
declaration), yet the diff output is empty — no `type_mismatch` entry (nor any
other entry) is produced by either cited script. -/
theorem type_mismatch_counterexample :
    drizzleCtor
        { name := "a", position := some 1, data_type := "uuid",
          char_max_length := none, numeric_precision := none,
          numeric_scale := none, is_nullable := false,
          column_default := none, udt_name := "uuid" } = "uuid" ∧
    (DzColumn.mk "a" "a" "text").drizzle_type = "text" ∧
    ("uuid" : String) ≠ "text" ∧
    tablesWithMissingCols
        [⟨"t", [{ name := "a", position := some 1, data_type := "uuid",
                  char_max_length := none, numeric_precision := none,
                  numeric_scale := none, is_nullable := false,
                  column_default := none, udt_name := "uuid" }]⟩]
        [⟨"tVar", "t", "x.schema.ts", [DzColumn.mk "a" "a" "text"]⟩] = [] ∧
    verifySummary [("t", ["a"])] [("t", ["a"])] = ⟨0, 0⟩ := by
  refine ⟨by decide, by decide, by decide, by decide, by decide⟩

/-- C6 (amended): the implemented diff compares column-name sets only; every
column it reports for a table is absent from the candidate, so a column
present in both models never produces any diff entry, whatever its types — no
`type_mismatch` category exists in the diff output. -/
theorem type_mismatch_amended (db : List DbTable) (dz : List DzTable)
    (e : String × List String) (he : e ∈ tablesWithMissingCols db dz)
    (c : String) (hc : c ∈ e.2) :
    c ∈ dbColNamesOf db e.1 ∧ c ∉ dzColNamesOf dz e.1 := by
  rcases mem_tablesWithMissingCols he with ⟨h2, _⟩
  rw [h2] at hc
  have hc2 : c ∈ missingColsFor db dz e.1 := mem_sortStrings.mp hc
  exact mem_listDiff.mp hc2

/-- Witness for C6 (amended): the single diff entry of a concrete model pair
names a column that is indeed present on the database side only. -/
theorem type_mismatch_amended_witness :
    "a" ∈ dbColNamesOf
        [⟨"t", [{ name := "a", position := some 1, data_type := "text",
                  char_max_length := none, numeric_precision := none,
                  numeric_scale := none, is_nullable := true,
                  column_default := none, udt_name := "text" }]⟩] "t" ∧
    "a" ∉ dzColNamesOf [⟨"tVar", "t", "x.schema.ts", []⟩] "t" :=
  type_mismatch_amended
    [⟨"t", [{ name := "a", position := some 1, data_type := "text",
              char_max_length := none, numeric_precision := none,
              numeric_scale := none, is_nullable := true,
              column_default := none, udt_name := "text" }]⟩]
    [⟨"tVar", "t", "x.schema.ts", []⟩]
    ("t", ["a"]) (by decide) "a" (by decide)

/-- C7 counterexample: appending a malformed (2-field) row to the columns
query result leaves the extractor's entire derived output — grouped columns
and the column-count statistic surfaced in the report — exactly equal to the
output without that row: the skipped row is not counted anywhere, so no
skipped count is surfaced. -/
theorem skipped_rows_counterexample :
    (["bad", "x"] : List String).length < 10 ∧
    extractColsOutput [["t", "a", "1", "text", "", "", "", "YES", "", "text"],
        ["bad", "x"]] =
      extractColsOutput [["t", "a", "1", "text", "", "", "", "YES", "", "text"]] ∧
    extractColsOutput [["t", "a", "1", "text", "", "", "", "YES", "", "text"]] =
      some ([("t", [{ name := "a", position := some 1, data_type := "text",
                      char_max_length := none, numeric_precision := none,
                      numeric_scale := none, is_nullable := true,
                      column_default := none, udt_name := "text" }])], 1) := by
  refine ⟨by decide, by decide, by decide⟩

/-- C7 (amended): catalog rows with fewer than 10 fields are skipped without
aborting the run, but no count of skipped rows is maintained or surfaced: the
grouping and every statistic derived from it are identical to those computed
from the input with the malformed rows removed. -/
theorem skipped_rows_amended (rows : List (List String)) :
    columnsByTable rows =
      columnsByTable (rows.filter (fun r => decide (r.length ≥ 10))) ∧
    extractColsOutput rows =
      extractColsOutput (rows.filter (fun r => decide (r.length ≥ 10))) := by
  have key : ∀ (rs : List (List String)) (m : List (String × List DbColumn)),
      rs.foldlM (fun m parts =>
          match parseColRow parts with
          | .short => some m
          | .err => none
          | .ok t c => some (insertColGroup m t c)) m =
        (rs.filter (fun r => decide (r.length ≥ 10))).foldlM (fun m parts =>
          match parseColRow parts with
          | .short => some m
          | .err => none
          | .ok t c => some (insertColGroup m t c)) m := by
    intro rs
    induction rs with
    | nil => intro m; rfl
    | cons r rest ih =>
      intro m
      by_cases hr : r.length ≥ 10
      · simp only [List.filter_cons, decide_eq_true_eq, hr, if_pos, List.foldlM_cons]
        cases hp : parseColRow r with
        | short =>
          exfalso
          unfold parseColRow at hp
          rw [if_pos hr] at hp
          split at hp <;> simp at hp
        | err => simp
        | ok t c => simpa using ih _
      · have hshort : parseColRow r = .short := by
          unfold parseColRow
          rw [if_neg hr]
        simp only [List.filter_cons, decide_eq_true_eq, hr, if_neg, List.foldlM_cons,
          hshort]
        simpa using ih m
  have h1 : columnsByTable rows =
      columnsByTable (rows.filter (fun r => decide (r.length ≥ 10))) := key rows []
  exact ⟨h1, by unfold extractColsOutput; rw [h1]⟩

/-- C8 counterexample: the default expression
`nextval(\x27users_id_seq\x27::regclass)` is classified into no known helper or
literal form (`cdDefaultMods` yields the empty modifier list), yet the codegen
renderer still emits a column statement for the column — with the default
modifier merely omitted — contradicting "emits no column statement". -/
theorem unclassified_default_counterexample :
    cdDefaultMods "nextval(\x27users_id_seq\x27::regclass)" = some [] ∧
    cdColLines
        [{ name := "cnt", position := some 1, data_type := "integer",
           char_max_length := none, numeric_precision := none,
           numeric_scale := none, is_nullable := false,
           column_default := some "nextval(\x27users_id_seq\x27::regclass)",
           udt_name := "int4" }] ["cnt"] =
      some ["  cnt: integer(\x27cnt\x27).notNull(),  // NOT NULL"] := by
  refine ⟨by decide, by decide⟩

/-- C8 (amended): for a missing column whose default expression cannot be
classified, both codegen renderers still emit the column statement, omitting
only the default modifier (leaving the default to manual review). -/
theorem unclassified_default_amended (col : DbColumn) (pcol : PgColumn) (d : String)
    (hcd : col.column_default = some d) (hpd : pcol.column_default = d)
    (hne : d ≠ "") (hcls : cdDefaultMods d = some [])
    (hams : amDefaultMods d (map_pg_type_to_drizzle pcol) = []) :
    cdLine col = some ("  " ++ pyReplace col.name "-" "_" ++ ": " ++
      map_db_type_to_drizzle col ++
      String.join (if col.is_nullable then [] else [".notNull()"]) ++ ",  // " ++
      (if col.is_nullable then "nullable" else "NOT NULL")) ∧
    amColLine pcol = "  " ++ camelize pcol.name ++ ": " ++
      map_pg_type_to_drizzle pcol ++
      String.join (if pcol.is_nullable then [] else [".notNull()"]) ++ "," := by
  constructor
  · unfold cdLine cdModifiers
    rw [hcd]
    simp [hne, hcls]
  · unfold amColLine amModifiers
    rw [hpd]
    simp [hne, hams]

/-- Witness for C8 (amended) at the concrete `nextval` default. -/
theorem unclassified_default_amended_witness :
    cdLine { name := "cnt", position := some 1, data_type := "integer",
             char_max_length := none, numeric_precision := none,
             numeric_scale := none, is_nullable := false,
             column_default := some "nextval(\x27users_id_seq\x27::regclass)",
             udt_name := "int4" } =
      some ("  " ++ pyReplace "cnt" "-" "_" ++ ": " ++
        map_db_type_to_drizzle
          { name := "cnt", position := some 1, data_type := "integer",
            char_max_length := none, numeric_precision := none,
            numeric_scale := none, is_nullable := false,
            column_default := some "nextval(\x27users_id_seq\x27::regclass)",
            udt_name := "int4" } ++
        String.join [".notNull()"] ++ ",  // " ++ "NOT NULL") ∧
    amColLine { name := "cnt", data_type := "integer", char_max_length := "",
                numeric_precision := "", numeric_scale := "",
                is_nullable := false,
                column_default := "nextval(\x27users_id_seq\x27::regclass)",
                udt_name := "int4" } =
      "  " ++ camelize "cnt" ++ ": " ++
        map_pg_type_to_drizzle
          { name := "cnt", data_type := "integer", char_max_length := "",
            numeric_precision := "", numeric_scale := "",
            is_nullable := false,
            column_default := "nextval(\x27users_id_seq\x27::regclass)",
            udt_name := "int4" } ++
        String.join [".notNull()"] ++ "," :=
  unclassified_default_amended _ _ "nextval(\x27users_id_seq\x27::regclass)"
    rfl rfl (by decide) (by decide) (by decide)

/-- C9 counterexample: in `generate_table_definition`
(`add-missing-tables-to-schemas.py`), a `now()` default on a plain `timestamp`
column is rendered as `.default(sql\x60now()\x60)` — the `defaultNow` helper is
not used, contrary to the claim that both timestamp flavors map to it. -/
theorem default_now_counterexample :
    amColLine { name := "created_at", data_type := "timestamp without time zone",
                char_max_length := "", numeric_precision := "",
                numeric_scale := "", is_nullable := false,
                column_default := "now()", udt_name := "timestamp" } =
      "  createdAt: timestamp(\x27created_at\x27).notNull().default(sql\x60now()\x60)," ∧
    containsSub
      "  createdAt: timestamp(\x27created_at\x27).notNull().default(sql\x60now()\x60),"
      ".defaultNow()" = false := by
  refine ⟨by decide, by decide⟩

/-- C9 (amended): a `CURRENT_TIMESTAMP`/`now()` default maps to `.defaultNow()`
unconditionally in `complete-drizzle-from-db.py`; in
`add-missing-tables-to-schemas.py` it maps to `.defaultNow()` only when the
generated type token carries the `withTimezone` qualifier (as for
`timestamptz`), and to `.default(sql\x60now()\x60)` when the token does not. -/
theorem default_now_amended (col : DbColumn) (pcol : PgColumn) (d : String)
    (hcd : col.column_default = some d) (hpd : pcol.column_default = d)
    (hne : d ≠ "") (hng : containsSub d "gen_random_uuid" = false)
    (hnow : (containsSub d "now()" || containsSub d "CURRENT_TIMESTAMP") = true) :
    cdModifiers col =
      some ((if col.is_nullable then [] else [".notNull()"]) ++ [".defaultNow()"]) ∧
    (pcol.udt_name = "timestamptz" →
      amModifiers pcol (map_pg_type_to_drizzle pcol) =
        (if pcol.is_nullable then [] else [".notNull()"]) ++ [".defaultNow()"]) ∧
    (containsSub (map_pg_type_to_drizzle pcol) "withTimezone" = false →
      amModifiers pcol (map_pg_type_to_drizzle pcol) =
        (if pcol.is_nullable then [] else [".notNull()"]) ++
          [".default(sql\x60now()\x60)"]) := by
  refine ⟨?_, ?_, ?_⟩
  · unfold cdModifiers cdDefaultMods
    rw [hcd]
    simp [hne, hng, hnow]
  · intro hut
    have hwz : containsSub (map_pg_type_to_drizzle pcol) "withTimezone" = true := by
      have hmap : map_pg_type_to_drizzle pcol =
          "timestamp(\x27" ++ pcol.name ++ "\x27, \x7b withTimezone: true \x7d)" := by
        simp [map_pg_type_to_drizzle, hut]
      rw [hmap]
      exact containsSub_append_right _ _ _ (by decide)
    unfold amModifiers amDefaultMods
    rw [hpd]
    simp [hne, hng, hnow, hwz]
  · intro hwz
    unfold amModifiers amDefaultMods
    rw [hpd]
    simp [hne, hng, hnow, hwz]

/-- Witness for C9 (amended) at a concrete `timestamptz` column with a `now()`
default. -/
theorem default_now_amended_witness :
    cdModifiers { name := "created_at", position := some 1,
                  data_type := "timestamp with time zone",
                  char_max_length := none, numeric_precision := none,
                  numeric_scale := none, is_nullable := false,
                  column_default := some "now()", udt_name := "timestamptz" } =
      some ([".notNull()"] ++ [".defaultNow()"]) ∧
    ((PgColumn.mk "created_at" "timestamp with time zone" "" "" "" false "now()"
        "timestamptz").udt_name = "timestamptz" →
      amModifiers
          (PgColumn.mk "created_at" "timestamp with time zone" "" "" "" false "now()"
            "timestamptz")
          (map_pg_type_to_drizzle
            (PgColumn.mk "created_at" "timestamp with time zone" "" "" "" false "now()"
              "timestamptz")) = [".notNull()"] ++ [".defaultNow()"]) ∧
    (containsSub
        (map_pg_type_to_drizzle
          (PgColumn.mk "created_at" "timestamp with time zone" "" "" "" false "now()"
            "timestamptz")) "withTimezone" = false →
      amModifiers
          (PgColumn.mk "created_at" "timestamp with time zone" "" "" "" false "now()"
            "timestamptz")
          (map_pg_type_to_drizzle
            (PgColumn.mk "created_at" "timestamp with time zone" "" "" "" false "now()"
              "timestamptz")) = [".notNull()"] ++ [".default(sql\x60now()\x60)"]) := by
  have h := default_now_amended
    { name := "created_at", position := some 1,
      data_type := "timestamp with time zone",
      char_max_length := none, numeric_precision := none,
      numeric_scale := none, is_nullable := false,
      column_default := some "now()", udt_name := "timestamptz" }
    (PgColumn.mk "created_at" "timestamp with time zone" "" "" "" false "now()"
      "timestamptz")
    "now()" rfl rfl (by decide) (by decide) (by decide)
  simpa using h

/-! ## C10 helper lemmas: Python dict assignment semantics -/

theorem lookup_assignTable (m : List (String × DzTable)) (t : DzTable) (name : String) :
    List.lookup name (assignTable m t) =
      if name = t.table_name then some t else List.lookup name m := by
  induction m with
  | nil =>
    by_cases hn : name = t.table_name
    · have hb : (name == t.table_name) = true := beq_iff_eq.mpr hn
      simp [assignTable, List.lookup, hb, hn]
    · have hb : (name == t.table_name) = false := by simp [hn]
      simp [assignTable, List.lookup, hb, hn]
  | cons kv rest ih =>
    obtain ⟨k, v⟩ := kv
    by_cases hk : k = t.table_name
    · by_cases hn : name = k
      · have hb : (name == k) = true := beq_iff_eq.mpr hn
        have hnt : name = t.table_name := hn.trans hk
        simp [assignTable, hk, List.lookup, hb, hnt]
      · have hb : (name == k) = false := by simp [hn]
        have hnt : ¬ name = t.table_name := fun hcon => hn (hcon.trans hk.symm)
        have hb2 : (name == t.table_name) = false := by simp [hnt]
        simp [assignTable, hk, List.lookup, hb, hb2, hnt]
    · by_cases hn : name = k
      · have hb : (name == k) = true := beq_iff_eq.mpr hn
        have hnt : ¬ name = t.table_name := fun hcon => hk (hn.symm.trans hcon)
        simp [assignTable, hk, List.lookup, hb, hnt]
      · have hb : (name == k) = false := by simp [hn]
        simp [assignTable, hk, List.lookup, hb, ih]

theorem mem_keys_assignTable {m : List (String × DzTable)} {t : DzTable} {x : String}
    (h : x ∈ (assignTable m t).map Prod.fst) :
    x ∈ m.map Prod.fst ∨ x = t.table_name := by
  induction m with
  | nil =>
    right
    simpa [assignTable] using h
  | cons kv rest ih =>
    obtain ⟨k, v⟩ := kv
    by_cases hk : k = t.table_name
    · rw [show assignTable ((k, v) :: rest) t = (k, t) :: rest by
        simp [assignTable, hk]] at h
      rw [List.map_cons, List.mem_cons] at h
      rcases h with h | h
      · left; rw [List.map_cons, List.mem_cons]; left; exact h
      · left; rw [List.map_cons, List.mem_cons]; right; exact h
    · rw [show assignTable ((k, v) :: rest) t = (k, v) :: assignTable rest t by
        simp [assignTable, hk]] at h
      rw [List.map_cons, List.mem_cons] at h
      rcases h with h | h
      · left; rw [List.map_cons, List.mem_cons]; left; exact h
      · rcases ih h with h2 | h2
        · left; rw [List.map_cons, List.mem_cons]; right; exact h2
        · right; exact h2

theorem nodup_keys_assignTable {m : List (String × DzTable)} {t : DzTable}
    (h : (m.map Prod.fst).Nodup) : ((assignTable m t).map Prod.fst).Nodup := by
  induction m with
  | nil => simp [assignTable]
  | cons kv rest ih =>
    obtain ⟨k, v⟩ := kv
    rw [List.map_cons, List.nodup_cons] at h
    obtain ⟨hk1, hk2⟩ := h
    by_cases hk : k = t.table_name
    · rw [show assignTable ((k, v) :: rest) t = (k, t) :: rest by
        simp [assignTable, hk]]
      rw [List.map_cons, List.nodup_cons]
      exact ⟨hk1, hk2⟩
    · rw [show assignTable ((k, v) :: rest) t = (k, v) :: assignTable rest t by
        simp [assignTable, hk]]
      rw [List.map_cons, List.nodup_cons]
      refine ⟨?_, ih hk2⟩
      intro hmem
      rcases mem_keys_assignTable hmem with h2 | h2
      · exact hk1 h2
      · exact hk h2

theorem nodup_keys_tablesDict (ts : List DzTable) :
    ((tablesDict ts).map Prod.fst).Nodup := by
  suffices h : ∀ m : List (String × DzTable), (m.map Prod.fst).Nodup →
      (((ts.foldl assignTable m)).map Prod.fst).Nodup from h [] (by simp)
  induction ts with
  | nil => intro m hm; simpa using hm
  | cons t rest ih =>
    intro m hm
    exact ih _ (nodup_keys_assignTable hm)

theorem lookup_tablesDict (ts : List DzTable) (name : String) :
    List.lookup name (tablesDict ts) =
      (ts.filter (fun t => t.table_name == name)).getLast? := by
  induction ts using List.reverseRecOn with
  | nil => rfl
  | append_singleton ts t ih =>
    have hfold : tablesDict (ts ++ [t]) = assignTable (tablesDict ts) t := by
      simp [tablesDict, List.foldl_append]
    rw [hfold, lookup_assignTable]
    by_cases hn : name = t.table_name
    · have hb : (t.table_name == name) = true := by simp [hn]
      simp [List.filter_append, hb, hn, List.getLast?_concat]
    · have hb : (t.table_name == name) = false := by
        simp only [beq_eq_false_iff_ne, ne_eq]
        intro hcontra
        exact hn hcontra.symm
      simp [List.filter_append, hb, hn, ih]

/-- C10: after the declaration extractor folds `all_tables` (files in sorted
filename order, declarations in textual order) into the tables dictionary,
the keys are unique and each table name is bound to the *last* descriptor
extracted under that name — every earlier duplicate is silently discarded. -/
theorem duplicate_table_names_last_wins (files : List (String × List DzTable))
    (name : String) :
    ((tablesDict (allTablesOf files)).map Prod.fst).Nodup ∧
    List.lookup name (tablesDict (allTablesOf files)) =
      ((allTablesOf files).filter (fun t => t.table_name == name)).getLast? :=
  ⟨nodup_keys_tablesDict _, lookup_tablesDict _ _⟩

end SchemaRecon
